import Mathlib

/-!
Shallow embedding of `telegram_music_api.py`, the Telegram music bot plus
Flask API server in this repository.

Modelling conventions:
* Python dictionaries (`tracks_storage`) become insertion-ordered association
  lists; assignment to an existing key replaces its value in place, assignment
  to a new key appends, matching CPython dict semantics.
* The `music/` blob directory becomes the list of file paths that exist.
* Nondeterministic inputs — `str(uuid.uuid4())[:8]`, `md5(...)[:8]`, and
  `datetime.now().isoformat()` — become explicit parameters.
* The `try/except` block of the upload handler becomes an explicit
  failure-point parameter saying which awaited call (if any) raises.
* Python string operations are re-implemented structurally over code-point
  lists (ASCII case folding, as in the concrete inputs used here).
-/

namespace TGMusic

/-! Python string primitives -/

/-- Python `str.strip()`: drop leading and trailing whitespace. -/
def pyStrip (s : String) : String :=
  ((s.toList.dropWhile Char.isWhitespace).reverse.dropWhile Char.isWhitespace).reverse.asString

/-- Python `str.lower()` (ASCII case folding). -/
def pyLower (s : String) : String :=
  (s.toList.map Char.toLower).asString

/-- Python `<=` on strings: lexicographic comparison of code points. -/
def charListLe : List Char → List Char → Bool
  | [], _ => true
  | _ :: _, [] => false
  | a :: as, b :: bs => if a < b then true else if b < a then false else charListLe as bs

/-- Python `a <= b` on strings. -/
def strLe (a b : String) : Bool :=
  charListLe a.toList b.toList

/-- Test that `n` is a leading segment of `h` (helper for the substring test). -/
def leadsList : List Char → List Char → Bool
  | [], _ => true
  | _ :: _, [] => false
  | a :: as, b :: bs => a = b && leadsList as bs

/-- Test `containsList h n`: `n` occurs contiguously inside `h`. -/
def containsList : List Char → List Char → Bool
  | [], n => n.isEmpty
  | h :: t, n => leadsList n (h :: t) || containsList t n

/-- Python `needle in hay` on strings: contiguous substring test. -/
def strContains (hay needle : String) : Bool :=
  containsList hay.toList needle.toList

/-- Python `a or b` for an optional string `a`: `b` when `a` is absent or
falsy (empty). -/
def strOr (a : Option String) (b : String) : String :=
  match a with
  | some s => if s = "" then b else s
  | none => b

/-- Metadata sanitization from `handle_audio_upload`:
`"".join(c for c in s if c.isalnum() or c in (' ', '-', '_')).strip()`. -/
def sanitizeMeta (s : String) : String :=
  pyStrip ((s.toList.filter (fun c => c.isAlphanum || c = ' ' || c = '-' || c = '_')).asString)

/-! Data model: `tracks_storage` and the blob directory -/

/-- One value of the `tracks_storage` dict, as built by `handle_audio_upload`.
Fields that the code reads with `.get(key, default)` are optional; fields read
with mandatory `[key]` indexing are plain. -/
structure Track where
  id : String
  title : String
  artist : String
  file_path : String
  file_id : String
  duration : Option Nat
  user_id : Option Nat
  uploaded_at : Option String
  play_count : Option Nat
deriving DecidableEq

/-- The global `tracks_storage`: an insertion-ordered dict from track id to record. -/
abbrev Catalog := List (String × Track)

/-- Dict lookup `tracks_storage[k]` / `k in tracks_storage`. -/
def dictLookup : Catalog → String → Option Track
  | [], _ => none
  | (k, v) :: rest, key => if k = key then some v else dictLookup rest key

/-- Dict assignment `tracks_storage[k] = v`: replace in place if the key is
present, append otherwise (CPython insertion-order semantics). -/
def dictInsert : Catalog → String → Track → Catalog
  | [], key, v => [(key, v)]
  | (k, w) :: rest, key, v =>
      if k = key then (key, v) :: rest else (k, w) :: dictInsert rest key v

/-- Python `tracks_storage.values()`, in insertion order. -/
def dictValues (c : Catalog) : List Track :=
  c.map Prod.snd

/-- Python `key in tracks_storage`. -/
def dictContains (c : Catalog) (key : String) : Bool :=
  (dictLookup c key).isSome

/-- The play count the code reads: `track.get('play_count', 0)`, or `0` when
the id is absent altogether. -/
def playCountOf (c : Catalog) (key : String) : Nat :=
  match dictLookup c key with
  | some t => t.play_count.getD 0
  | none => 0

/-! Persistence: `save_tracks` and `load_tracks` -/

/-- The snapshot-file contents observable while `save_tracks` runs.
`save_tracks` opens `music/tracks.json` with mode `'w'` — truncating the file
to empty — and then writes the serialized catalog sequentially, so the
observable states are every prefix of the new content (index `0` is the
just-truncated empty file, index `length` the completed write).  There is no
temporary file and no rename. -/
def save_tracks_states (content : String) : List String :=
  (List.range (content.length + 1)).map (fun k => (content.toList.take k).asString)

/-- What `load_tracks` can find on disk at startup. -/
inductive SnapshotFile where
  | missing
  | corrupt
  | valid (c : Catalog)
deriving DecidableEq

/-- How startup proceeds after `load_tracks`. -/
inductive LoadOutcome where
  /-- The process continues running with this catalog. -/
  | started (c : Catalog)
  /-- Modelled from the spec: a fatal startup error surfaced to the operator.
  Present only so the spec's claimed behaviour is expressible; see below for
  whether the code ever produces it. -/
  | fatal
deriving DecidableEq

/-- Startup `load_tracks`: a missing file leaves the initial empty dict; a file that
exists but fails `json.load` raises inside the `try`, the `except` logs
`"Load error"` and the function returns — the global dict stays empty and
startup continues; a parsable file replaces the dict. -/
def load_tracks : SnapshotFile → LoadOutcome
  | .missing => .started []
  | .corrupt => .started []
  | .valid c => .started c

/-! Public views and the query endpoints -/

/-- The `safe_track` dict built by `get_tracks` (`/api/tracks`): only these
six fields, never `file_path` or `file_id`. -/
structure ListView where
  id : String
  title : String
  artist : String
  duration : Nat
  uploaded_at : String
  play_count : Nat
deriving DecidableEq

/-- One `safe_track` of `get_tracks`, with the code's `.get` defaults. -/
def listViewOf (t : Track) : ListView :=
  ⟨t.id, t.title, t.artist, t.duration.getD 0, t.uploaded_at.getD "", t.play_count.getD 0⟩

/-- Stable insertion of `v` in front of the first element whose
`uploaded_at` key is `≤` its own (descending order). -/
def insertDesc (v : ListView) : List ListView → List ListView
  | [] => [v]
  | w :: ws => if strLe w.uploaded_at v.uploaded_at then v :: w :: ws else w :: insertDesc v ws

/-- Python `list.sort(key=lambda x: x['uploaded_at'], reverse=True)`: a stable
sort into descending `uploaded_at` order. -/
def sortUploadedDesc : List ListView → List ListView
  | [] => []
  | v :: vs => insertDesc v (sortUploadedDesc vs)

/-- Endpoint `GET /api/tracks`: build the safe views, sort newest-first by
`uploaded_at`, return the list and its length as `count`. -/
def get_tracks (storage : Catalog) : List ListView × Nat :=
  let safe_tracks := (dictValues storage).map listViewOf
  let sorted := sortUploadedDesc safe_tracks
  (sorted, sorted.length)

/-- The `safe_track` dict built by `search_tracks`: five fields, without
`uploaded_at`. -/
structure SearchView where
  id : String
  title : String
  artist : String
  duration : Nat
  play_count : Nat
deriving DecidableEq

/-- One `safe_track` of `search_tracks`. -/
def searchViewOf (t : Track) : SearchView :=
  ⟨t.id, t.title, t.artist, t.duration.getD 0, t.play_count.getD 0⟩

/-- Endpoint `GET /api/search?q=...`: `query = q.strip().lower()`; an empty `query`
answers HTTP 400 `'Query parameter "q" is required'`; otherwise the tracks
whose lowered title or artist contains `query` are returned (insertion
order), echoing `query` and the result count. -/
def search_tracks (storage : Catalog) (q : String) : Except String (String × List SearchView) :=
  let query := pyLower (pyStrip q)
  if query = "" then
    .error "Query parameter \"q\" is required"
  else
    .ok (query,
      ((dictValues storage).filter (fun t =>
        strContains (pyLower t.title) query || strContains (pyLower t.artist) query)).map
        searchViewOf)

/-! Streaming: `play_track` and `download_track` -/

/-- Outcome of `/api/play/<id>` and `/api/download/<id>`. -/
inductive StreamResult where
  /-- HTTP 404 `'Track not found'`. -/
  | trackNotFound
  /-- HTTP 404 `'Audio file not found'`. -/
  | fileNotFound
  /-- A chunked byte stream of the named file with the given MIME type and
  `Content-Disposition`. -/
  | ok (mimetype : String) (disposition : String) (body_path : String)
deriving DecidableEq

/-- Endpoint `GET /api/play/<track_id>`: look the id up, 404 if absent; 404 if the
blob file does not exist; otherwise set
`play_count = track.get('play_count', 0) + 1`, persist, and stream the file
inline in 8 KiB chunks.  The increment happens before the response streams,
so it is issued exactly once per accepted request however much of the stream
the caller consumes. -/
def play_track (storage : Catalog) (fsys : List String) (track_id : String) :
    StreamResult × Catalog :=
  match dictLookup storage track_id with
  | none => (.trackNotFound, storage)
  | some track =>
    if fsys.contains track.file_path then
      let updated := { track with play_count := some (track.play_count.getD 0 + 1) }
      (.ok "audio/mpeg" ("inline; filename=\"" ++ track.title ++ ".mp3\"") track.file_path,
        dictInsert storage track_id updated)
    else
      (.fileNotFound, storage)

/-- Endpoint `GET /api/download/<track_id>`: identical lookup and file check, then
`send_file(..., as_attachment=True, download_name=f"{artist} - {title}.mp3")`
without touching the catalog. -/
def download_track (storage : Catalog) (fsys : List String) (track_id : String) :
    StreamResult × Catalog :=
  match dictLookup storage track_id with
  | none => (.trackNotFound, storage)
  | some track =>
    if fsys.contains track.file_path then
      (.ok "audio/mpeg"
        ("attachment; filename=\"" ++ track.artist ++ " - " ++ track.title ++ ".mp3\"")
        track.file_path, storage)
    else
      (.fileNotFound, storage)

/-- Endpoint `GET /api/stats`: total tracks and the sum of the play counters. -/
def get_stats (storage : Catalog) : Nat × Nat :=
  ((dictValues storage).length,
    ((dictValues storage).map (fun t => t.play_count.getD 0)).sum)

/-! Ingestion: `handle_audio_upload` -/

/-- The inbound Telegram audio message consumed by `handle_audio_upload`. -/
structure AudioMsg where
  /-- Flag: `update.message.audio` is present. -/
  has_audio : Bool
  /-- Field `audio.file_size` (may be unset). -/
  file_size : Option Nat
  /-- Field `audio.title`. -/
  title : Option String
  /-- Field `audio.file_name`. -/
  file_name : Option String
  /-- Field `audio.performer`. -/
  performer : Option String
  /-- Field `audio.duration`. -/
  duration : Option Nat
  /-- Field `audio.file_id`. -/
  file_id : String
  /-- Field `update.effective_user.id`. -/
  user_id : Nat
deriving DecidableEq

/-- Which awaited call inside the handler's `try` block raises, if any.
`beforeBlobWrite` stands for `get_file`/`download_to_drive` failing before
the blob file exists; `afterBlobWrite` for a failure raised after
`download_to_drive` returned but before the dict assignment completed. -/
inductive FailPoint where
  | noFail
  | beforeBlobWrite
  | afterBlobWrite
deriving DecidableEq

/-- The reply the handler sends the uploader. -/
inductive UploadOutcome where
  /-- Reply `"❌ Отправьте аудиофайл"` — no audio payload. -/
  | notAudio
  /-- Reply `"❌ Файл слишком большой (максимум 50MB)"`. -/
  | tooLarge
  /-- The `except` branch: `"❌ Ошибка при загрузке: ..."`. -/
  | uploadError
  /-- The success message carrying the new id and play/download links. -/
  | success (track_id : String)
deriving DecidableEq

/-- The size gate `if audio.file_size and audio.file_size > 50 * 1024 * 1024`. -/
def size_too_large (msg : AudioMsg) : Bool :=
  match msg.file_size with
  | some n => n != 0 && decide (n > 50 * 1024 * 1024)
  | none => false

/-- Blob file name `f"{track_id}_{file_hash}.mp3"` under `MUSIC_DIR`. -/
def blob_path (track_id file_hash : String) : String :=
  "music/" ++ track_id ++ "_" ++ file_hash ++ ".mp3"

/-- Upload handler `handle_audio_upload`, as a transition on `(catalog, blob directory)`.
`gen_id` stands for `str(uuid.uuid4())[:8]` (no check against existing ids is
performed), `file_hash` for `md5(audio.file_id)[:8]`, `now` for
`datetime.now().isoformat()`.  On any exception the `except` branch only logs
and edits the status message — it removes nothing from disk. -/
def handle_audio_upload (storage : Catalog) (fsys : List String) (msg : AudioMsg)
    (gen_id file_hash now : String) (fail : FailPoint) :
    UploadOutcome × Catalog × List String :=
  if !msg.has_audio then
    (.notAudio, storage, fsys)
  else if size_too_large msg then
    (.tooLarge, storage, fsys)
  else
    match fail with
    | .beforeBlobWrite => (.uploadError, storage, fsys)
    | .afterBlobWrite => (.uploadError, storage, fsys ++ [blob_path gen_id file_hash])
    | .noFail =>
      let title := sanitizeMeta (strOr msg.title (strOr msg.file_name "Unknown Title"))
      let artist := sanitizeMeta (strOr msg.performer "Unknown Artist")
      let file_path := blob_path gen_id file_hash
      let track : Track :=
        ⟨gen_id, title, artist, file_path, msg.file_id,
          some (msg.duration.getD 0), some msg.user_id, some now, some 0⟩
      (.success gen_id, dictInsert storage gen_id track, fsys ++ [file_path])

/-! The exposed surface -/

/-- Every Flask route the server registers, with its HTTP method. -/
def api_routes : List (String × String) :=
  [("GET", "/"), ("GET", "/health"), ("GET", "/api/tracks"), ("GET", "/api/search"),
   ("GET", "/api/play/<track_id>"), ("GET", "/api/download/<track_id>"),
   ("GET", "/api/stats"), ("POST", "/webhook")]

/-- Every Telegram-side handler the bot registers: the four slash commands,
the audio-message handler, and the inline-button callback handler. -/
def bot_handlers : List String :=
  ["start", "stats", "list", "api", "audio_upload", "button_callback"]

/-! Dictionary lemmas -/

theorem dictLookup_dictInsert_self (c : Catalog) (k : String) (v : Track) :
    dictLookup (dictInsert c k v) k = some v := by
  induction c with
  | nil => simp [dictInsert, dictLookup]
  | cons p rest ih =>
    obtain ⟨k', w⟩ := p
    by_cases h : k' = k
    · simp [dictInsert, dictLookup, h]
    · simp [dictInsert, dictLookup, h, ih]

theorem dictLookup_dictInsert_ne (c : Catalog) (k key : String) (v : Track)
    (h : key ≠ k) : dictLookup (dictInsert c k v) key = dictLookup c key := by
  induction c with
  | nil => simp [dictInsert, dictLookup, Ne.symm h]
  | cons p rest ih =>
    obtain ⟨k', w⟩ := p
    by_cases hk : k' = k
    · subst hk
      simp [dictInsert, dictLookup, Ne.symm h]
    · simp [dictInsert, dictLookup, hk, ih]

theorem dictInsert_of_lookup_none (c : Catalog) (k : String) (v : Track)
    (h : dictLookup c k = none) : dictInsert c k v = c ++ [(k, v)] := by
  induction c with
  | nil => simp [dictInsert]
  | cons p rest ih =>
    obtain ⟨k', w⟩ := p
    by_cases hk : k' = k
    · simp [dictLookup, hk] at h
    · simp only [dictLookup, if_neg hk] at h
      simp [dictInsert, hk, ih h]

theorem dictContains_dictInsert (c : Catalog) (k key : String) (v : Track)
    (h : dictContains c key = true) : dictContains (dictInsert c k v) key = true := by
  by_cases hk : key = k
  · subst hk
    simp [dictContains, dictLookup_dictInsert_self]
  · simpa [dictContains, dictLookup_dictInsert_ne c k key v hk] using h

/-! Lexicographic order on code-point lists -/

theorem charListLe_total (a b : List Char) (h : charListLe a b = false) :
    charListLe b a = true := by
  induction a generalizing b with
  | nil => simp [charListLe] at h
  | cons x xs ih =>
    cases b with
    | nil => simp [charListLe]
    | cons y ys =>
      simp only [charListLe] at h ⊢
      by_cases hxy : x < y
      · simp [hxy] at h
      · by_cases hyx : y < x
        · simp [hyx]
        · simp only [if_neg hxy, if_neg hyx] at h
          simp only [if_neg hyx, if_neg hxy]
          exact ih _ h

theorem charListLe_trans (a b c : List Char) (h1 : charListLe a b = true)
    (h2 : charListLe b c = true) : charListLe a c = true := by
  induction a generalizing b c with
  | nil => simp [charListLe]
  | cons x xs ih =>
    cases b with
    | nil => simp [charListLe] at h1
    | cons y ys =>
      cases c with
      | nil => simp [charListLe] at h2
      | cons z zs =>
        simp only [charListLe] at h1 h2 ⊢
        rcases lt_trichotomy x y with hxy | hxy | hxy
        · rcases lt_trichotomy y z with hyz | hyz | hyz
          · simp [lt_trans hxy hyz]
          · subst hyz
            simp [hxy]
          · simp [if_neg (asymm hyz), if_pos hyz] at h2
        · subst hxy
          simp only [lt_irrefl, if_neg, if_false, ite_self, if_neg (lt_irrefl x)] at h1
          rcases lt_trichotomy x z with hyz | hyz | hyz
          · simp [hyz]
          · subst hyz
            simp only [if_neg (lt_irrefl x)] at h2 ⊢
            exact ih _ _ h1 h2
          · simp [if_neg (asymm hyz), if_pos hyz] at h2
        · simp [if_neg (asymm hxy), if_pos hxy] at h1

theorem strLe_total (a b : String) (h : strLe a b = false) : strLe b a = true :=
  charListLe_total a.toList b.toList h

/-! Stable descending sort lemmas -/

theorem insertDesc_perm (v : ListView) (l : List ListView) :
    (insertDesc v l).Perm (v :: l) := by
  induction l with
  | nil => simp [insertDesc]
  | cons w ws ih =>
    simp only [insertDesc]
    by_cases h : strLe w.uploaded_at v.uploaded_at = true
    · simp [h]
    · simp only [Bool.not_eq_true] at h
      simp only [h, if_false]
      exact ((ih.cons w).trans (List.Perm.swap v w ws))

theorem sortUploadedDesc_perm (l : List ListView) :
    (sortUploadedDesc l).Perm l := by
  induction l with
  | nil => simp [sortUploadedDesc]
  | cons v vs ih =>
    exact (insertDesc_perm v (sortUploadedDesc vs)).trans (ih.cons v)

/-- Descending `uploaded_at` order: each element's key is `≥` (in Python
string order) every later element's key. -/
def SortedDesc (l : List ListView) : Prop :=
  List.Pairwise (fun a b => strLe b.uploaded_at a.uploaded_at = true) l

theorem insertDesc_sorted (v : ListView) (l : List ListView) (h : SortedDesc l) :
    SortedDesc (insertDesc v l) := by
  induction l with
  | nil => simp [insertDesc, SortedDesc]
  | cons w ws ih =>
    simp only [SortedDesc, List.pairwise_cons] at h
    obtain ⟨hw, hws⟩ := h
    simp only [insertDesc]
    by_cases hle : strLe w.uploaded_at v.uploaded_at = true
    · simp only [hle, if_true, SortedDesc, List.pairwise_cons]
      refine ⟨?_, hw, hws⟩
      intro x hx
      rcases List.mem_cons.mp hx with rfl | hx2
      · exact hle
      · exact charListLe_trans _ _ _ (hw x hx2) hle
    · simp only [Bool.not_eq_true] at hle
      simp only [hle, if_false, SortedDesc, List.pairwise_cons]
      constructor
      · intro x hx
        rcases List.mem_cons.mp ((insertDesc_perm v ws).mem_iff.mp hx) with rfl | hx2
        · exact strLe_total _ _ hle
        · exact hw x hx2
      · exact ih hws

theorem sortUploadedDesc_sorted (l : List ListView) :
    SortedDesc (sortUploadedDesc l) := by
  induction l with
  | nil => simp [sortUploadedDesc, SortedDesc]
  | cons v vs ih => exact insertDesc_sorted v _ ih

/-! Substring characterization -/

theorem leadsList_iff (n h : List Char) :
    leadsList n h = true ↔ ∃ rest, h = n ++ rest := by
  induction n generalizing h with
  | nil => simp [leadsList]
  | cons a as ih =>
    cases h with
    | nil => simp [leadsList]
    | cons b bs =>
      simp only [leadsList, Bool.and_eq_true, decide_eq_true_eq, ih, List.cons_append,
        List.cons.injEq]
      constructor
      · rintro ⟨rfl, rest, rfl⟩
        exact ⟨rest, rfl, rfl⟩
      · rintro ⟨rest, rfl, rfl⟩
        exact ⟨rfl, rest, rfl⟩

theorem containsList_iff (h n : List Char) :
    containsList h n = true ↔ ∃ pre post, h = pre ++ n ++ post := by
  induction h with
  | nil =>
    simp only [containsList, List.isEmpty_iff]
    constructor
    · rintro rfl
      exact ⟨[], [], rfl⟩
    · rintro ⟨pre, post, hp⟩
      have h2 : pre = [] ∧ n = [] ∧ post = [] := by simpa using hp.symm
      exact h2.2.1
  | cons c t ih =>
    simp only [containsList, Bool.or_eq_true, leadsList_iff, ih]
    constructor
    · rintro (⟨rest, hr⟩ | ⟨pre, post, rfl⟩)
      · exact ⟨[], rest, by simpa using hr⟩
      · exact ⟨c :: pre, post, rfl⟩
    · rintro ⟨pre, post, hp⟩
      cases pre with
      | nil =>
        left
        exact ⟨post, by simpa using hp⟩
      | cons p ps =>
        right
        simp only [List.cons_append, List.cons.injEq] at hp
        exact ⟨ps, post, hp.2⟩

theorem strContains_iff (hay needle : String) :
    strContains hay needle = true ↔
      ∃ pre post, hay.toList = pre ++ needle.toList ++ post :=
  containsList_iff hay.toList needle.toList

/-! Sample data for concrete instantiations -/

/-- A sample catalog entry, as `handle_audio_upload` would have built it. -/
def trackA : Track :=
  ⟨"abc12345", "Song A", "Artist X", "music/abc12345_aaaa0000.mp3", "fidA",
    some 100, some 1, some "2024-01-01T00:00:00", some 5⟩

/-- A second sample entry, uploaded later than `trackA`. -/
def trackB : Track :=
  ⟨"bcd23456", "Other Song", "Artist Y", "music/bcd23456_cccc2222.mp3", "fidB2",
    some 80, some 2, some "2024-03-01T00:00:00", some 1⟩

/-- A well-formed inbound audio message. -/
def msgB : AudioMsg :=
  ⟨true, some 1000, some "Song B", none, some "Artist Y", some 90, "fidB", 2⟩

/-- An inbound audio message whose title consists only of characters the
sanitizer removes. -/
def msgBang : AudioMsg :=
  ⟨true, some 1000, some "!!!", none, none, some 90, "fidC", 3⟩

/-- An inbound audio message whose declared size exceeds 50 MiB by one byte. -/
def msgTooBig : AudioMsg :=
  ⟨true, some 52428801, some "Big", none, none, some 1, "fidD", 4⟩

/-! C1 — snapshot persistence is not an atomic replace -/

/-- C1: the claim says an interrupted persistence write leaves either the
previous snapshot or the complete new one on disk.  False: `save_tracks`
opens the snapshot with mode `'w'`, so immediately after the open the file is
empty — neither the previous snapshot `"oldsnap"` nor the new content
`"newsnap"`. -/
theorem C1_counterexample :
    ¬ (∀ s ∈ save_tracks_states "newsnap", s = "oldsnap" ∨ s = "newsnap") := by
  decide

/-- C1 (amended): `save_tracks` persists by overwriting `tracks.json` in
place; every state observable during an interrupted write is a prefix
(truncation) of the new content — the previous snapshot is destroyed by the
truncating open — and the completed write is the full new snapshot. -/
theorem C1_save_overwrite_prefixes (content s : String)
    (h : s ∈ save_tracks_states content) :
    (∃ k, k ≤ content.length ∧ s = (content.toList.take k).asString) ∧
      content ∈ save_tracks_states content := by
  constructor
  · simp only [save_tracks_states, List.mem_map, List.mem_range] at h
    obtain ⟨k, hk, rfl⟩ := h
    exact ⟨k, Nat.lt_succ_iff.mp hk, rfl⟩
  · simp only [save_tracks_states, List.mem_map, List.mem_range]
    refine ⟨content.length, Nat.lt_succ_self _, ?_⟩
    rw [show content.length = content.toList.length from rfl, List.take_length]
    rfl

theorem C1_witness :
    (∃ k, k ≤ "snap".length ∧ "sn" = ("snap".toList.take k).asString) ∧
      "snap" ∈ save_tracks_states "snap" :=
  C1_save_overwrite_prefixes "snap" "sn" (by decide)

/-! C2 — ids are not collision-checked -/

/-- C2: the claim says creation collision-checks the fresh id so no create
ever overwrites an existing catalog entry.  False: `handle_audio_upload`
takes `str(uuid.uuid4())[:8]` unchecked, and a generated id equal to an
existing one silently replaces that entry. -/
theorem C2_counterexample :
    (handle_audio_upload [("abc12345", trackA)] [] msgB "abc12345" "bbbb1111"
        "2024-02-02T00:00:00" FailPoint.noFail).1 = UploadOutcome.success "abc12345" ∧
    ("abc12345", trackA) ∉ (handle_audio_upload [("abc12345", trackA)] [] msgB "abc12345"
        "bbbb1111" "2024-02-02T00:00:00" FailPoint.noFail).2.1 ∧
    (handle_audio_upload [("abc12345", trackA)] [] msgB "abc12345" "bbbb1111"
        "2024-02-02T00:00:00" FailPoint.noFail).2.1.length = 1 := by
  decide

/-- C2 (amended): no collision check is performed; resulting ids are distinct
only when the generated ids happen to be.  Whenever the generated id is fresh,
registration appends a brand-new entry (play count `0`) and leaves every
existing entry in place; a colliding id instead overwrites. -/
theorem C2_fresh_id_appends (storage : Catalog) (fsys : List String) (msg : AudioMsg)
    (gen_id file_hash now : String)
    (h1 : msg.has_audio = true) (h2 : size_too_large msg = false)
    (h3 : dictLookup storage gen_id = none) :
    ∃ tr : Track,
      handle_audio_upload storage fsys msg gen_id file_hash now FailPoint.noFail =
        (UploadOutcome.success gen_id, storage ++ [(gen_id, tr)],
          fsys ++ [blob_path gen_id file_hash]) ∧
      tr.id = gen_id ∧ tr.play_count = some 0 := by
  refine ⟨⟨gen_id, sanitizeMeta (strOr msg.title (strOr msg.file_name "Unknown Title")),
    sanitizeMeta (strOr msg.performer "Unknown Artist"), blob_path gen_id file_hash,
    msg.file_id, some (msg.duration.getD 0), some msg.user_id, some now, some 0⟩,
    ?_, rfl, rfl⟩
  simp [handle_audio_upload, h1, h2, dictInsert_of_lookup_none storage gen_id _ h3]

theorem C2_witness :
    ∃ tr : Track,
      handle_audio_upload [] [] msgB "abc12345" "bbbb1111" "t0" FailPoint.noFail =
        (UploadOutcome.success "abc12345", [] ++ [("abc12345", tr)],
          [] ++ [blob_path "abc12345" "bbbb1111"]) ∧
      tr.id = "abc12345" ∧ tr.play_count = some 0 :=
  C2_fresh_id_appends [] [] msgB "abc12345" "bbbb1111" "t0" (by decide) (by decide) (by decide)

/-! C3 — play counters -/

/-- C3: the claim says no operation other than deletion ever decreases a
track's play count.  False: a create whose generated truncated-uuid id
collides with an existing catalog entry overwrites that entry with a fresh
record carrying play count `0` — here the count of `"abc12345"` drops from
`5` to `0` under a successful upload, and the service has no delete
operation at all. -/
theorem C3_counterexample :
    playCountOf [("abc12345", trackA)] "abc12345" = 5 ∧
    (handle_audio_upload [("abc12345", trackA)] [] msgB "abc12345" "bbbb1111" "t9"
        FailPoint.noFail).1 = UploadOutcome.success "abc12345" ∧
    playCountOf (handle_audio_upload [("abc12345", trackA)] [] msgB "abc12345" "bbbb1111"
        "t9" FailPoint.noFail).2.1 "abc12345" = 0 := by
  decide

/-- C3 (amended): for an id in the catalog whose blob file exists, a play
request streams the file and increments that track's play count by exactly
one — issued once per accepted request, before any bytes stream, independent
of how much is consumed — leaving every other entry untouched; a download
request leaves the catalog unchanged; play and download never decrease any
play count, and neither does an upload whose generated id is fresh — but a
successful upload always stores play count `0` under its generated id, so an
id-colliding upload (the one non-deletion path) resets an accumulated
count. -/
theorem C3_play_download_counts (storage : Catalog) (fsys : List String)
    (track_id : String) (track : Track)
    (h1 : dictLookup storage track_id = some track)
    (h2 : fsys.contains track.file_path = true) :
    (play_track storage fsys track_id).1 =
        StreamResult.ok "audio/mpeg"
          ("inline; filename=\"" ++ track.title ++ ".mp3\"") track.file_path ∧
    playCountOf (play_track storage fsys track_id).2 track_id
        = playCountOf storage track_id + 1 ∧
    (∀ k, k ≠ track_id →
      dictLookup (play_track storage fsys track_id).2 k = dictLookup storage k) ∧
    (∀ k, playCountOf storage k ≤ playCountOf (play_track storage fsys track_id).2 k) ∧
    (download_track storage fsys track_id).2 = storage ∧
    (∀ msg gen_id file_hash now fail, dictContains storage gen_id = false →
      ∀ k, playCountOf storage k ≤
        playCountOf (handle_audio_upload storage fsys msg gen_id file_hash now
          fail).2.1 k) ∧
    (∀ msg gen_id file_hash now, msg.has_audio = true → size_too_large msg = false →
      playCountOf (handle_audio_upload storage fsys msg gen_id file_hash now
        FailPoint.noFail).2.1 gen_id = 0) := by
  have h2m : track.file_path ∈ fsys := by simpa using h2
  have hp2 : (play_track storage fsys track_id).2 =
      dictInsert storage track_id
        { track with play_count := some (track.play_count.getD 0 + 1) } := by
    simp [play_track, h1, h2m]
  refine ⟨by simp [play_track, h1, h2m], ?_, ?_, ?_,
    by simp [download_track, h1, h2m], ?_, ?_⟩
  · rw [hp2]
    simp [playCountOf, dictLookup_dictInsert_self, h1]
  · intro k hk
    rw [hp2, dictLookup_dictInsert_ne _ _ _ _ hk]
  · intro k
    by_cases hk : k = track_id
    · subst hk
      rw [hp2]
      simp [playCountOf, dictLookup_dictInsert_self, h1]
    · rw [hp2]
      unfold playCountOf
      rw [dictLookup_dictInsert_ne _ _ _ _ hk]
  · intro msg gid fh now fail hfresh k
    have hnone : dictLookup storage gid = none := by
      cases hcase : dictLookup storage gid with
      | none => rfl
      | some tr => simp [dictContains, hcase] at hfresh
    unfold handle_audio_upload
    split
    · exact Nat.le_refl _
    · split
      · exact Nat.le_refl _
      · cases fail
        · by_cases hk : k = gid
          · subst hk
            simp [playCountOf, hnone, dictLookup_dictInsert_self]
          · unfold playCountOf
            rw [dictLookup_dictInsert_ne _ _ _ _ hk]
        · exact Nat.le_refl _
        · exact Nat.le_refl _
  · intro msg gid fh now ha hs
    simp [handle_audio_upload, ha, hs, playCountOf, dictLookup_dictInsert_self]

theorem C3_witness :
    (play_track [("abc12345", trackA)] ["music/abc12345_aaaa0000.mp3"] "abc12345").1 =
        StreamResult.ok "audio/mpeg"
          ("inline; filename=\"" ++ trackA.title ++ ".mp3\"") trackA.file_path ∧
    playCountOf (play_track [("abc12345", trackA)] ["music/abc12345_aaaa0000.mp3"]
        "abc12345").2 "abc12345"
      = playCountOf [("abc12345", trackA)] "abc12345" + 1 ∧
    (∀ k, k ≠ "abc12345" →
      dictLookup (play_track [("abc12345", trackA)] ["music/abc12345_aaaa0000.mp3"]
        "abc12345").2 k = dictLookup [("abc12345", trackA)] k) ∧
    (∀ k, playCountOf [("abc12345", trackA)] k ≤
      playCountOf (play_track [("abc12345", trackA)] ["music/abc12345_aaaa0000.mp3"]
        "abc12345").2 k) ∧
    (download_track [("abc12345", trackA)] ["music/abc12345_aaaa0000.mp3"] "abc12345").2 =
      [("abc12345", trackA)] ∧
    (∀ msg gen_id file_hash now fail,
      dictContains [("abc12345", trackA)] gen_id = false →
      ∀ k, playCountOf [("abc12345", trackA)] k ≤
        playCountOf (handle_audio_upload [("abc12345", trackA)]
          ["music/abc12345_aaaa0000.mp3"] msg gen_id file_hash now fail).2.1 k) ∧
    (∀ msg gen_id file_hash now, msg.has_audio = true → size_too_large msg = false →
      playCountOf (handle_audio_upload [("abc12345", trackA)]
        ["music/abc12345_aaaa0000.mp3"] msg gen_id file_hash now
        FailPoint.noFail).2.1 gen_id = 0) :=
  C3_play_download_counts [("abc12345", trackA)] ["music/abc12345_aaaa0000.mp3"]
    "abc12345" trackA (by decide) (by decide)

/-! C4 — no rollback of the orphaned blob -/

/-- C4: the claim says that when the blob is written but registration then
fails, the pipeline deletes the orphaned blob before reporting failure.
False: the handler's `except` branch only logs and edits the status message;
here a failure after the blob write reports an error while the blob file
stays on disk and no catalog entry references it. -/
theorem C4_counterexample :
    (handle_audio_upload [] [] msgB "id1" "hash1" "t0" FailPoint.afterBlobWrite).1 =
        UploadOutcome.uploadError ∧
    (handle_audio_upload [] [] msgB "id1" "hash1" "t0" FailPoint.afterBlobWrite).2.2 =
        ["music/id1_hash1.mp3"] ∧
    (handle_audio_upload [] [] msgB "id1" "hash1" "t0" FailPoint.afterBlobWrite).2.1 = [] := by
  decide

/-- C4 (amended): on a failure raised after the blob write, the handler
reports failure with the catalog unchanged and the orphaned blob still
present on disk — nothing deletes it. -/
theorem C4_orphan_blob_remains (storage : Catalog) (fsys : List String) (msg : AudioMsg)
    (gen_id file_hash now : String)
    (h1 : msg.has_audio = true) (h2 : size_too_large msg = false) :
    handle_audio_upload storage fsys msg gen_id file_hash now FailPoint.afterBlobWrite =
      (UploadOutcome.uploadError, storage, fsys ++ [blob_path gen_id file_hash]) := by
  simp [handle_audio_upload, h1, h2]

theorem C4_witness :
    handle_audio_upload [] [] msgB "id1" "hash1" "t0" FailPoint.afterBlobWrite =
      (UploadOutcome.uploadError, [], [] ++ [blob_path "id1" "hash1"]) :=
  C4_orphan_blob_remains [] [] msgB "id1" "hash1" "t0" (by decide) (by decide)

/-! C5 — a corrupt snapshot is not fatal -/

/-- C5: the claim says a snapshot that exists but cannot be parsed is a fatal
startup error.  False: `load_tracks` catches the parse exception, logs
`"Load error"`, and the service starts with an empty catalog. -/
theorem C5_counterexample :
    load_tracks SnapshotFile.corrupt = LoadOutcome.started [] ∧
    load_tracks SnapshotFile.corrupt ≠ LoadOutcome.fatal := by
  decide

/-- C5 (amended): a missing snapshot initializes an empty catalog; a corrupt
snapshot is logged and likewise yields an empty catalog with startup
continuing; a valid snapshot is loaded; no snapshot condition is fatal. -/
theorem C5_load_never_fatal :
    load_tracks SnapshotFile.missing = LoadOutcome.started [] ∧
    load_tracks SnapshotFile.corrupt = LoadOutcome.started [] ∧
    (∀ c : Catalog, load_tracks (SnapshotFile.valid c) = LoadOutcome.started c) ∧
    (∀ f : SnapshotFile, load_tracks f ≠ LoadOutcome.fatal) := by
  refine ⟨rfl, rfl, fun c => rfl, fun f => ?_⟩
  cases f <;> simp [load_tracks]

theorem C5_witness :
    load_tracks (SnapshotFile.valid [("abc12345", trackA)]) =
      LoadOutcome.started [("abc12345", trackA)] ∧
    load_tracks SnapshotFile.missing ≠ LoadOutcome.fatal :=
  ⟨C5_load_never_fatal.2.2.1 [("abc12345", trackA)],
   C5_load_never_fatal.2.2.2 SnapshotFile.missing⟩

/-! C6 — empty-after-sanitization titles are stored, not rejected -/

theorem asString_eq_empty_iff (l : List Char) : l.asString = "" ↔ l = [] := by
  constructor
  · intro h
    exact congrArg String.toList h
  · rintro rfl
    rfl

theorem pyLower_eq_empty_iff (s : String) : pyLower s = "" ↔ s = "" := by
  unfold pyLower
  rw [asString_eq_empty_iff, List.map_eq_nil_iff]
  constructor
  · intro h
    exact congrArg List.asString h
  · rintro rfl
    rfl

/-- C6: the claim says an upload whose title is empty after sanitization
fails with `InvalidMetadata` and registers nothing, so every stored title is
non-empty.  False: `handle_audio_upload` never checks the sanitized title —
an all-punctuation title is registered as the empty string. -/
theorem C6_counterexample :
    (handle_audio_upload [] [] msgBang "tid00001" "hash0001" "t0" FailPoint.noFail).1 =
        UploadOutcome.success "tid00001" ∧
    (dictLookup (handle_audio_upload [] [] msgBang "tid00001" "hash0001" "t0"
        FailPoint.noFail).2.1 "tid00001").map Track.title = some "" := by
  decide

/-- C6 (amended): no metadata check follows sanitization: whenever validation
passes and the title sanitizes to the empty string, the upload still succeeds
and the catalog entry is stored with an empty title. -/
theorem C6_empty_title_registered (storage : Catalog) (fsys : List String) (msg : AudioMsg)
    (gen_id file_hash now : String)
    (h1 : msg.has_audio = true) (h2 : size_too_large msg = false)
    (h3 : sanitizeMeta (strOr msg.title (strOr msg.file_name "Unknown Title")) = "") :
    (handle_audio_upload storage fsys msg gen_id file_hash now FailPoint.noFail).1 =
        UploadOutcome.success gen_id ∧
    (dictLookup (handle_audio_upload storage fsys msg gen_id file_hash now
        FailPoint.noFail).2.1 gen_id).map Track.title = some "" := by
  constructor
  · simp [handle_audio_upload, h1, h2]
  · simp [handle_audio_upload, h1, h2, dictLookup_dictInsert_self, h3]

theorem C6_witness :
    (handle_audio_upload [] [] msgBang "tid00002" "hash0002" "t1" FailPoint.noFail).1 =
        UploadOutcome.success "tid00002" ∧
    (dictLookup (handle_audio_upload [] [] msgBang "tid00002" "hash0002" "t1"
        FailPoint.noFail).2.1 "tid00002").map Track.title = some "" :=
  C6_empty_title_registered [] [] msgBang "tid00002" "hash0002" "t1"
    (by decide) (by decide) (by decide)

/-! C7 — search semantics -/

/-- C7: a query that is empty after trimming is rejected with the
`InvalidQuery` error response, and a (trimmed) non-empty query returns
exactly the tracks whose lowered title or lowered artist contains the lowered
query as a contiguous substring. -/
theorem C7_search_spec (storage : Catalog) (q : String) :
    (pyStrip q = "" →
      search_tracks storage q = Except.error "Query parameter \"q\" is required") ∧
    (pyStrip q = q → q ≠ "" →
      ∃ views,
        search_tracks storage q = Except.ok (pyLower q, views) ∧
        (∀ v, v ∈ views ↔ ∃ t, t ∈ dictValues storage ∧
          ((∃ pre post, (pyLower t.title).toList = pre ++ (pyLower q).toList ++ post) ∨
           (∃ pre post, (pyLower t.artist).toList = pre ++ (pyLower q).toList ++ post)) ∧
          v = searchViewOf t)) := by
  constructor
  · intro h
    have hz : pyLower (pyStrip q) = "" := by
      rw [h]
      rfl
    simp [search_tracks, hz]
  · intro hq hne
    have hnz : ¬ (pyLower (pyStrip q) = "") := by
      rw [hq]
      intro hh
      exact hne ((pyLower_eq_empty_iff q).mp hh)
    refine ⟨((dictValues storage).filter (fun t =>
        strContains (pyLower t.title) (pyLower (pyStrip q)) ||
          strContains (pyLower t.artist) (pyLower (pyStrip q)))).map searchViewOf, ?_, ?_⟩
    · simp only [search_tracks]
      rw [if_neg hnz, hq]
    · intro v
      simp only [List.mem_map, List.mem_filter, Bool.or_eq_true, strContains_iff, hq]
      constructor
      · rintro ⟨t, ⟨htm, hc⟩, rfl⟩
        exact ⟨t, htm, hc, rfl⟩
      · rintro ⟨t, htm, hc, rfl⟩
        exact ⟨t, ⟨htm, hc⟩, rfl⟩

theorem C7_witness :
    search_tracks [("abc12345", trackA)] "  " =
      Except.error "Query parameter \"q\" is required" ∧
    ∃ views,
      search_tracks [("abc12345", trackA)] "song" = Except.ok (pyLower "song", views) ∧
      (∀ v, v ∈ views ↔ ∃ t, t ∈ dictValues [("abc12345", trackA)] ∧
        ((∃ pre post, (pyLower t.title).toList = pre ++ (pyLower "song").toList ++ post) ∨
         (∃ pre post, (pyLower t.artist).toList = pre ++ (pyLower "song").toList ++ post)) ∧
        v = searchViewOf t) :=
  ⟨(C7_search_spec [("abc12345", trackA)] "  ").1 (by decide),
   (C7_search_spec [("abc12345", trackA)] "song").2 (by decide) (by decide)⟩

/-! C8 — oversized uploads are rejected before any write -/

/-- C8: an upload whose declared size exceeds the 50 MiB ceiling is rejected
with the too-large reply before any blob is written: whatever would have
happened afterwards, the catalog and the blob directory are unchanged. -/
theorem C8_too_large_rejected (storage : Catalog) (fsys : List String) (msg : AudioMsg)
    (gen_id file_hash now : String) (fail : FailPoint) (n : Nat)
    (h1 : msg.has_audio = true) (h2 : msg.file_size = some n)
    (h3 : 50 * 1024 * 1024 < n) :
    handle_audio_upload storage fsys msg gen_id file_hash now fail =
      (UploadOutcome.tooLarge, storage, fsys) := by
  have hbig : size_too_large msg = true := by
    simp only [size_too_large, h2, Bool.and_eq_true, bne_iff_ne, ne_eq, decide_eq_true_eq]
    exact ⟨by omega, h3⟩
  simp [handle_audio_upload, h1, hbig]

theorem C8_witness :
    handle_audio_upload [] [] msgTooBig "xx" "yy" "t0" FailPoint.noFail =
      (UploadOutcome.tooLarge, [], []) :=
  C8_too_large_rejected [] [] msgTooBig "xx" "yy" "t0" FailPoint.noFail 52428801
    (by decide) (by decide) (by decide)

/-! C9 — there is no delete operation -/

/-- C9: the claim says the service exposes a delete operation.  False: the
registered surface — every Flask route and every Telegram handler — contains
no delete operation at all. -/
theorem C9_counterexample :
    api_routes.all (fun r => !(strContains (pyLower r.2) "delete")) = true ∧
    bot_handlers.all (fun h => !(strContains (pyLower h) "delete")) = true := by
  decide

/-- C9 (amended): the service exposes no delete operation, and nothing can
remove a record: every catalog key present before a play, download, or upload
request is still present afterwards. -/
theorem C9_no_delete_operation (storage : Catalog) (fsys : List String) (key : String)
    (hk : dictContains storage key = true) :
    (∀ track_id, dictContains (play_track storage fsys track_id).2 key = true) ∧
    (∀ track_id, dictContains (download_track storage fsys track_id).2 key = true) ∧
    (∀ msg gen_id file_hash now fail,
      dictContains (handle_audio_upload storage fsys msg gen_id file_hash now fail).2.1
        key = true) := by
  refine ⟨?_, ?_, ?_⟩
  · intro tid
    unfold play_track
    split
    · exact hk
    · split
      · exact dictContains_dictInsert _ _ _ _ hk
      · exact hk
  · intro tid
    unfold download_track
    split
    · exact hk
    · split <;> exact hk
  · intro msg gid fh now fail
    unfold handle_audio_upload
    split
    · exact hk
    · split
      · exact hk
      · cases fail
        · exact dictContains_dictInsert _ _ _ _ hk
        · exact hk
        · exact hk

theorem C9_witness :
    dictContains (play_track [("abc12345", trackA)] [] "zzz").2 "abc12345" = true ∧
    dictContains (download_track [("abc12345", trackA)] [] "zzz").2 "abc12345" = true ∧
    dictContains (handle_audio_upload [("abc12345", trackA)] [] msgB "qqq" "www" "t0"
        FailPoint.noFail).2.1 "abc12345" = true :=
  ⟨(C9_no_delete_operation [("abc12345", trackA)] [] "abc12345" (by decide)).1 "zzz",
   (C9_no_delete_operation [("abc12345", trackA)] [] "abc12345" (by decide)).2.1 "zzz",
   (C9_no_delete_operation [("abc12345", trackA)] [] "abc12345" (by decide)).2.2
     msgB "qqq" "www" "t0" FailPoint.noFail⟩

/-! C10 — public track listing -/

/-- C10: `/api/tracks` returns one public view per catalog entry — only id,
title, artist, duration, upload timestamp, and play count — sorted by upload
timestamp descending, with `count` equal to the number of tracks. -/
theorem C10_list_public (storage : Catalog) :
    (get_tracks storage).2 = (dictValues storage).length ∧
    ((get_tracks storage).1).Perm ((dictValues storage).map listViewOf) ∧
    SortedDesc (get_tracks storage).1 ∧
    (∀ v, v ∈ (get_tracks storage).1 →
      ∃ t, t ∈ dictValues storage ∧ v = listViewOf t) := by
  have hperm : ((get_tracks storage).1).Perm ((dictValues storage).map listViewOf) :=
    sortUploadedDesc_perm _
  refine ⟨?_, hperm, sortUploadedDesc_sorted _, ?_⟩
  · show (sortUploadedDesc ((dictValues storage).map listViewOf)).length = _
    rw [(sortUploadedDesc_perm _).length_eq, List.length_map]
  · intro v hv
    obtain ⟨t, ht, rfl⟩ := List.mem_map.mp (hperm.mem_iff.mp hv)
    exact ⟨t, ht, rfl⟩

theorem C10_witness :
    (get_tracks [("abc12345", trackA), ("bcd23456", trackB)]).2 =
        (dictValues [("abc12345", trackA), ("bcd23456", trackB)]).length ∧
    SortedDesc (get_tracks [("abc12345", trackA), ("bcd23456", trackB)]).1 ∧
    (∃ t, t ∈ dictValues [("abc12345", trackA), ("bcd23456", trackB)] ∧
      listViewOf trackA = listViewOf t) :=
  ⟨(C10_list_public [("abc12345", trackA), ("bcd23456", trackB)]).1,
   (C10_list_public [("abc12345", trackA), ("bcd23456", trackB)]).2.2.1,
   (C10_list_public [("abc12345", trackA), ("bcd23456", trackB)]).2.2.2
     (listViewOf trackA) (by decide)⟩

end TGMusic
